import Mathlib

set_option maxRecDepth 16384

/-!
Verification of the `temper` USB thermometer driver (yrro/temper).

The repository contains three near-duplicate C++ translation units:
`temper.cpp` (the current variant) and two unnamed older variants,
called `part_000` and `part_001` below. This file gives a shallow
embedding of their session/protocol logic:

* USB transfer results are modelled as `Int` return codes (negative
  values are libusb errors), exactly as the C++ checks them;
* exceptions become `Except UErr`;
* the side effects performed against the USB stack are recorded as an
  explicit event trace (`Ev`), so that ordering and teardown claims can
  be stated as facts about the produced trace;
* the external USB stack is an environment `Env` supplying the result
  of every external call (transfer return codes, received report bytes,
  kernel-driver query results, and so on).

All definitions are transcribed from the C++ sources; theorems at the
end settle the specification claims.
-/

namespace Temper

/-- Errors thrown by the C++ code: `usb_error` wrapping a libusb return
code, and the four `runtime_error`s it constructs ("could not find
device", "wrong number of bytes written", "wrong number of bytes read",
"unknwon device type"). -/
inductive UErr where
  | usb (code : Int)
  | notFound
  | shortWrite (r : Int)
  | shortRead (r : Int)
  | unknownDevType
  deriving DecidableEq, Repr

/-- Observable actions performed against the USB stack (plus the
diagnostic log writes of the guard destructors and the final
temperature print). -/
inductive Ev where
  | kactive (i : Nat)
  | detach (i : Nat)
  | claim (i : Nat)
  | setConfig (c : Nat)
  | send (m : List Nat)
  | recv
  | release (i : Nat)
  | attach (i : Nat)
  | log (e : UErr)
  | print (t : ℚ)
  deriving DecidableEq, Repr

/-- The "hey, here comes a command!" framing message of `send_cmd`:
`msg32 b = {{0x0a, 0x0b, 0x0c, 0x0d, 0x00, 0x00, 0x02, 0x00}}`,
zero-filled to 32 bytes by aggregate initialisation. -/
def selectMsg : List Nat :=
  [0x0a, 0x0b, 0x0c, 0x0d, 0x00, 0x00, 0x02, 0x00] ++ List.replicate 24 0

/-- The command message of `send_cmd`: `msg32 b = {{0}}; b[0] = cmd;`. -/
def commandMsg (c : Nat) : List Nat := c :: List.replicate 31 0

/-- The "i2c bus padding" message of `send_cmd`: `msg32 b = {{0}}`. -/
def padMsg : List Nat := List.replicate 32 0

/-- The "hey, give me the data!" framing message of `read_data`:
`msg32 b = {{10, 11, 12, 13, 0, 0, 1, 0}}`. -/
def readReqMsg : List Nat :=
  [10, 11, 12, 13, 0, 0, 1, 0] ++ List.replicate 24 0

/-- The messages `send_cmd` hands to `usb_send`, in order: the select
framing message, the command message, then seven padding messages. -/
def send_cmd_msgs (c : Nat) : List (List Nat) :=
  [selectMsg, commandMsg c] ++ List.replicate 7 padMsg

/-- The messages `read_data` hands to `usb_send`, in order: the
`send_cmd` sequence followed by the read-request framing message. -/
def read_data_msgs (c : Nat) : List (List Nat) :=
  send_cmd_msgs c ++ [readReqMsg]

/-- The error outcome of `usb_send` in `temper.cpp` as a function of
the control-transfer return value `r`: `usb_error::check (r)` throws a
`usb_error` when `r < 0`, then `r != 32` throws the
"wrong number of bytes written" `runtime_error`. -/
def usb_send_res (r : Int) : Except UErr Unit :=
  if r < 0 then Except.error (UErr.usb r)
  else if r ≠ 32 then Except.error (UErr.shortWrite r)
  else Except.ok ()

/-- `usb_send` from `temper.cpp`: one outbound control transfer of the
32-byte buffer `m`, whose result code is `r`.  The transfer is
attempted exactly once; the event trace is the single `send`. -/
def usb_send (r : Int) (m : List Nat) : List Ev × Except UErr Unit :=
  ([Ev.send m], usb_send_res r)

/-- The error outcome of `usb_recv` in `temper.cpp` as a function of
the control-transfer return value `r`: `usb_error::check (r)` throws
when `r < 0`, then `r < int (result.size ())` (with `result.size () =
256`) throws the "wrong number of bytes read" `runtime_error`. -/
def usb_recv_res (r : Int) : Except UErr Unit :=
  if r < 0 then Except.error (UErr.usb r)
  else if r < 256 then Except.error (UErr.shortRead r)
  else Except.ok ()

/-- `usb_recv` from `temper.cpp`: one inbound control transfer into a
256-byte buffer; `r` is the transfer result, `d` the bytes the device
delivered. -/
def usb_recv (r : Int) (d : List Nat) : List Ev × Except UErr (List Nat) :=
  ([Ev.recv],
    match usb_recv_res r with
    | Except.ok _ => Except.ok d
    | Except.error e => Except.error e)

/-- The 32-byte buffer `send_data` (variant `part_000`) builds from an
8-word message: `std::copy` of the message followed by `std::fill`
with zeros. -/
def sendBuf (d : List Nat) : List Nat := d ++ List.replicate (32 - d.length) 0

/-- `send_data` from variant `part_000`: expands the 8-word message to
a zero-padded 32-byte buffer and performs one outbound transfer; the
result checks are identical to `usb_send` (`check (r)`, then
`r != 32`). -/
def send_data (r : Int) (m : List Nat) : List Ev × Except UErr Unit :=
  ([Ev.send (sendBuf m)], usb_send_res r)

/-- `recv_data` from variant `part_000`: one inbound transfer into a
256-byte buffer, but the short-read check there is `r < 2`, not
`r < 256`. -/
def recv_data (r : Int) (d : List Nat) : List Ev × Except UErr (List Nat) :=
  ([Ev.recv],
    if r < 0 then Except.error (UErr.usb r)
    else if r < 2 then Except.error (UErr.shortRead r)
    else Except.ok d)

/-- The outbound messages of variant `part_000`'s `main`, in order:
select, increase-precision command, seven pads, get-temperature
command, seven pads, close. -/
def select_device : List Nat := [10, 11, 12, 13, 0, 0, 2, 0]

/-- `increase_precision` message constant of variant `part_000`. -/
def increase_precision : List Nat := [0x43, 0, 0, 0, 0, 0, 0, 0]

/-- `padding` message constant of variant `part_000`. -/
def padding : List Nat := [0, 0, 0, 0, 0, 0, 0, 0]

/-- `get_temperature` message constant of variant `part_000`. -/
def get_temperature : List Nat := [0x54, 0, 0, 0, 0, 0, 0, 0]

/-- `close_device` message constant of variant `part_000`. -/
def close_device : List Nat := [10, 11, 12, 13, 0, 0, 1, 0]

/-- The full outbound message sequence of variant `part_000`'s `main`. -/
def p0_main_msgs : List (List Nat) :=
  [select_device, increase_precision] ++ List.replicate 7 padding ++
    [get_temperature] ++ List.replicate 7 padding ++ [close_device]

/-- A USB device descriptor as inspected by `usb_device_get`. -/
structure USBDev where
  idVendor : Nat
  idProduct : Nat
  deriving DecidableEq, Repr

/-- `usb_device_get`: walks the enumeration snapshot in order, opens
and returns the first device whose descriptor matches the vendor and
product ids, and throws the "could not find device" `runtime_error`
when the loop falls through. -/
def usb_device_get : List USBDev → Nat → Nat → Except UErr USBDev
  | [], _, _ => Except.error UErr.notFound
  | d :: rest, v, p =>
    if d.idVendor == v && d.idProduct == p then Except.ok d
    else usb_device_get rest v p

/-- The device-type word `main` obtains from the device-info report:
variant `part_001` copies exactly `sizeof (dev_info)` leading bytes of
the report into `struct dev_info` and reads its leading `uint16_t`
(little-endian host), byte 0 plus 256 times byte 1, the only field the
dispatch consults.  `temper.cpp` instead copies all 256 report bytes
into the 8-byte struct — an out-of-bounds stack write with undefined
behaviour that no defined-behaviour embedding can express; this
development follows `part_001`'s bounded copy and reports the
`temper.cpp` deviation as a code defect under the dispatch and
noninterference claims. -/
def devWord (d : List Nat) : Nat := d.getD 0 0 + 256 * d.getD 1 0

/-- The temperature computation of `main`'s read block:
`float (d[0]) + float (d[1])/256` (variant `part_000` uses `double`).
Both bytes are below 256, so the value is a dyadic rational with at
most 16 mantissa bits and is represented exactly by `f32` and `f64`
alike; it is therefore modelled exactly in `ℚ`. -/
def decode (d : List Nat) : ℚ := (d.getD 0 0 : ℚ) + (d.getD 1 0 : ℚ) / 256

/-- The environment supplies the outcome of every call into the USB
stack: the enumeration snapshot, per-interface kernel-driver query /
detach / claim / release / reattach results, the set-configuration
result, the result code of the `n`-th outbound and inbound control
transfer, and the report bytes delivered by the `n`-th inbound
transfer. -/
structure Env where
  devices : List USBDev
  kactiveR : Nat → Int
  detachR : Nat → Int
  setConfigR : Int
  claimR : Nat → Int
  sendR : Nat → Int
  recvR : Nat → Int
  recvD : Nat → List Nat
  releaseR : Nat → Int
  attachR : Nat → Int

/-- Sends a list of 32-byte messages in order via `usb_send`,
threading the outbound-transfer counter and stopping at the first
failure (the C++ exception aborts the remaining sends). -/
def sendSeq (env : Env) : Nat → List (List Nat) → List Ev × Nat × Except UErr Unit
  | sc, [] => ([], sc, Except.ok ())
  | sc, m :: rest =>
    match usb_send_res (env.sendR sc) with
    | Except.ok _ =>
      match sendSeq env (sc + 1) rest with
      | (t2, sc2, r) => (Ev.send m :: t2, sc2, r)
    | Except.error e => ([Ev.send m], sc + 1, Except.error e)

/-- `send_cmd` from `temper.cpp`: select framing message, command
message, then seven padding messages, each via `usb_send`. -/
def send_cmd (env : Env) (sc : Nat) (c : Nat) : List Ev × Nat × Except UErr Unit :=
  sendSeq env sc (send_cmd_msgs c)

/-- `read_data` from `temper.cpp`: `send_cmd`, then the read-request
framing message, then one `usb_recv`. -/
def read_data (env : Env) (sc rc : Nat) (c : Nat) :
    List Ev × Nat × Nat × Except UErr (List Nat) :=
  match sendSeq env sc (read_data_msgs c) with
  | (t, sc2, Except.ok _) =>
    match (usb_recv (env.recvR rc) (env.recvD rc)).2 with
    | Except.ok d => (t ++ [Ev.recv], sc2, rc + 1, Except.ok d)
    | Except.error e => (t ++ [Ev.recv], sc2, rc + 1, Except.error e)
  | (t, sc2, Except.error e) => (t, sc2, rc, Except.error e)

/-- The protocol phases of `main`: the init block reads the
device-info report with the devtype command `0x52`, switches on the
decoded device-type word (dispatching `send_cmd` of reset0 `0x43` for
`dev_type_temper1 = 0x5857`, throwing "unknwon device type" otherwise),
then the read block reads the data report with the getdata-inner
command `0x54` and prints the decoded temperature.  The device-info
parsing follows variant `part_001`'s bounded `std::copy` (see
`devWord`); `temper.cpp`'s init block instead copies all 256 report
bytes over the 8-byte `dev_info` object, undefined behaviour that this
model does not reproduce and that is reported as a code defect. -/
def protocol (env : Env) : List Ev × Except UErr Unit :=
  match read_data env 0 0 0x52 with
  | (t, _, _, Except.error e) => (t, Except.error e)
  | (t, sc, rc, Except.ok dinfo) =>
    if devWord dinfo = 0x5857 then
      match send_cmd env sc 0x43 with
      | (t2, _, Except.error e) => (t ++ t2, Except.error e)
      | (t2, sc2, Except.ok _) =>
        match read_data env sc2 rc 0x54 with
        | (t3, _, _, Except.error e) => (t ++ t2 ++ t3, Except.error e)
        | (t3, _, _, Except.ok d) =>
          (t ++ t2 ++ t3 ++ [Ev.print (decode d)], Except.ok ())
    else (t, Except.error UErr.unknownDevType)

/-- Constructor of `usb_attach_interface` for interface `i`:
`was_attached` is the checked result of `libusb_kernel_driver_active`
(result `ka`); if nonzero, `libusb_detach_kernel_driver` (result `dr`)
is checked as well.  A negative result propagates as `usb_error`. -/
def attach_ctor (i : Nat) (ka dr : Int) : List Ev × Except UErr Bool :=
  if ka < 0 then ([Ev.kactive i], Except.error (UErr.usb ka))
  else if ka = 0 then ([Ev.kactive i], Except.ok false)
  else if dr < 0 then ([Ev.kactive i, Ev.detach i], Except.error (UErr.usb dr))
  else ([Ev.kactive i, Ev.detach i], Except.ok true)

/-- Constructor of `usb_claim_interface` for interface `i`: checks
`libusb_claim_interface` (result `cr`). -/
def claim_ctor (i : Nat) (cr : Int) : List Ev × Except UErr Unit :=
  if cr < 0 then ([Ev.claim i], Except.error (UErr.usb cr))
  else ([Ev.claim i], Except.ok ())

/-- The `libusb_set_configuration (dh.get (), 1)` step of `main`
(result `r`), wrapped in `usb_error::check`. -/
def set_config_step (r : Int) : List Ev × Except UErr Unit :=
  if r < 0 then ([Ev.setConfig 1], Except.error (UErr.usb r))
  else ([Ev.setConfig 1], Except.ok ())

/-- Body of the `usb_claim_interface` destructor before its catch
clause: checks `libusb_release_interface` (result `r`). -/
def release_step (i : Nat) (r : Int) : List Ev × Except UErr Unit :=
  if r < 0 then ([Ev.release i], Except.error (UErr.usb r))
  else ([Ev.release i], Except.ok ())

/-- Body of the `usb_attach_interface` destructor before its catch
clause: if the kernel driver was originally attached, checks
`libusb_attach_kernel_driver` (result `r`). -/
def reattach_step (i : Nat) (w : Bool) (r : Int) : List Ev × Except UErr Unit :=
  if w then
    if r < 0 then ([Ev.attach i], Except.error (UErr.usb r))
    else ([Ev.attach i], Except.ok ())
  else ([], Except.ok ())

/-- The function-try-block of both guard destructors: a `usb_error`
escaping the body is caught and written to `std::cerr` (the diagnostic
sink) — but the handler then flows off its end, and reaching the end
of a handler of a constructor or destructor function-try-block
rethrows the current exception ([except.handle]).  So the error still
escapes the destructor after being logged; since the destructors of
`temper.cpp` are implicitly `noexcept`, the rethrow makes the process
terminate (`std::terminate`), which `session` below models by aborting
the remaining teardown with `Outcome.terminated`. -/
def dtor_catch : List Ev × Except UErr Unit → List Ev × Except UErr Unit
  | (t, Except.ok _) => (t, Except.ok ())
  | (t, Except.error (UErr.usb c)) =>
    (t ++ [Ev.log (UErr.usb c)], Except.error (UErr.usb c))
  | (t, Except.error e) => (t, Except.error e)

/-- Destructor of `usb_claim_interface`. -/
def claim_dtor (i : Nat) (r : Int) : List Ev × Except UErr Unit :=
  dtor_catch (release_step i r)

/-- Destructor of `usb_attach_interface`. -/
def attach_dtor (i : Nat) (w : Bool) (r : Int) : List Ev × Except UErr Unit :=
  dtor_catch (reattach_step i w r)

deriving instance DecidableEq for Except

/-- How a run of `main` ends: either `main` itself returns (success,
or an exception caught by its top-level handler), or a guard
destructor rethrew during teardown and the implicitly-`noexcept`
destructor made the process terminate. -/
inductive Outcome where
  | finished (r : Except UErr Unit)
  | terminated (e : UErr)
  deriving DecidableEq, Repr

/-- Runs the destructors of the constructed guards in order.  An error
escaping a destructor (the rethrow of `dtor_catch`) hits the implicit
`noexcept` of the destructor, so the process terminates at once: the
remaining destructors never run. -/
def run_dtors : List (List Ev × Except UErr Unit) → List Ev × Option UErr
  | [] => ([], none)
  | d :: rest =>
    match d with
    | (t, Except.ok _) =>
      match run_dtors rest with
      | (t2, o) => (t ++ t2, o)
    | (t, Except.error e) => (t, some e)

/-- Leaving a scope of `main` with pending result `r`: the destructors
`ds` of the guards constructed in that scope run in order; if one of
them fails the process terminates (discarding `r`, whether it was a
success or a propagating error), otherwise `main` finishes with `r`. -/
def end_scope (pre : List Ev) (r : Except UErr Unit)
    (ds : List (List Ev × Except UErr Unit)) : List Ev × Outcome :=
  match run_dtors ds with
  | (td, none) => (pre ++ td, Outcome.finished r)
  | (td, some e) => (pre ++ td, Outcome.terminated e)

/-- `main` from `temper.cpp`: locate the device, construct attach
guards `a1` (interface 0) and `a2` (interface 1), set configuration 1,
construct claim guards `i1` (interface 0) and `i2` (interface 1), run
the protocol, and let C++ scope exit run the destructors of the guards
constructed so far in reverse construction order (`i2`, `i1`, `a2`,
`a1`) on every exit path.  A destructor whose own release or reattach
call fails logs the error and rethrows (function-try-block), which
terminates the process and skips the remaining destructors. -/
def session (env : Env) : List Ev × Outcome :=
  match usb_device_get env.devices 0x1130 0x660c with
  | Except.error e => ([], Outcome.finished (Except.error e))
  | Except.ok _ =>
    match attach_ctor 0 (env.kactiveR 0) (env.detachR 0) with
    | (t1, Except.error e) => (t1, Outcome.finished (Except.error e))
    | (t1, Except.ok w0) =>
      match attach_ctor 1 (env.kactiveR 1) (env.detachR 1) with
      | (t2, Except.error e) =>
        end_scope (t1 ++ t2) (Except.error e) [attach_dtor 0 w0 (env.attachR 0)]
      | (t2, Except.ok w1) =>
        match set_config_step env.setConfigR with
        | (t3, Except.error e) =>
          end_scope (t1 ++ t2 ++ t3) (Except.error e)
            [attach_dtor 1 w1 (env.attachR 1), attach_dtor 0 w0 (env.attachR 0)]
        | (t3, Except.ok _) =>
          match claim_ctor 0 (env.claimR 0) with
          | (t4, Except.error e) =>
            end_scope (t1 ++ t2 ++ t3 ++ t4) (Except.error e)
              [attach_dtor 1 w1 (env.attachR 1),
                attach_dtor 0 w0 (env.attachR 0)]
          | (t4, Except.ok _) =>
            match claim_ctor 1 (env.claimR 1) with
            | (t5, Except.error e) =>
              end_scope (t1 ++ t2 ++ t3 ++ t4 ++ t5) (Except.error e)
                [claim_dtor 0 (env.releaseR 0),
                  attach_dtor 1 w1 (env.attachR 1),
                  attach_dtor 0 w0 (env.attachR 0)]
            | (t5, Except.ok _) =>
              match protocol env with
              | (tp, r) =>
                end_scope (t1 ++ t2 ++ t3 ++ t4 ++ t5 ++ tp) r
                  [claim_dtor 1 (env.releaseR 1), claim_dtor 0 (env.releaseR 0),
                    attach_dtor 1 w1 (env.attachR 1),
                    attach_dtor 0 w0 (env.attachR 0)]

/-- Is an event a teardown attempt (interface release or kernel-driver
reattach)? -/
def isTd : Ev → Bool
  | Ev.release _ => true
  | Ev.attach _ => true
  | _ => false

/-- Did the device locator succeed for this environment? -/
def devOk (env : Env) : Bool :=
  match usb_device_get env.devices 0x1130 0x660c with
  | Except.ok _ => true
  | Except.error _ => false

/-- Did the `usb_attach_interface` constructor for interface `i`
complete? -/
def aOk (env : Env) (i : Nat) : Bool :=
  match (attach_ctor i (env.kactiveR i) (env.detachR i)).2 with
  | Except.ok _ => true
  | Except.error _ => false

/-- The `was_attached` flag the attach guard for interface `i` records
(false when its constructor does not complete). -/
def wAtt (env : Env) (i : Nat) : Bool :=
  match (attach_ctor i (env.kactiveR i) (env.detachR i)).2 with
  | Except.ok w => w
  | Except.error _ => false

/-- Guard `a1` (attach, interface 0) was fully constructed. -/
def g_a1 (env : Env) : Bool := devOk env && aOk env 0

/-- Guard `a2` (attach, interface 1) was fully constructed. -/
def g_a2 (env : Env) : Bool := g_a1 env && aOk env 1

/-- Guard `i1` (claim, interface 0) was fully constructed. -/
def g_i1 (env : Env) : Bool :=
  g_a2 env && decide (0 ≤ env.setConfigR) && decide (0 ≤ env.claimR 0)

/-- Guard `i2` (claim, interface 1) was fully constructed. -/
def g_i2 (env : Env) : Bool := g_i1 env && decide (0 ≤ env.claimR 1)

/-- Is an event an outbound transfer? -/
def isSend : Ev → Bool
  | Ev.send _ => true
  | _ => false

/-- A device-info report of a TEMPer1 device: type word `0x5857`
transmitted little-endian as bytes `0x57, 0x58`, zero calibration
bytes and footer. -/
def t1Report : List Nat := 0x57 :: 0x58 :: List.replicate 254 0

/-- The same device-info report with every byte from offset 2 on
changed (different calibration pairs and footer). -/
def t1ReportAlt : List Nat := 0x57 :: 0x58 :: List.replicate 254 7

/-- A data report whose two sample bytes `0x14, 0x80` decode to 20.5. -/
def r205 : List Nat := 0x14 :: 0x80 :: List.replicate 254 0

/-- An environment in which one matching device is attached and every
USB call succeeds: the kernel driver is active on both interfaces,
every outbound transfer writes 32 bytes, every inbound transfer reads
256 bytes, and every report delivered is `t1Report`. -/
def okEnv : Env :=
  ⟨[⟨0x1130, 0x660c⟩], fun _ => 1, fun _ => 0, 0, fun _ => 0, fun _ => 32,
    fun _ => 256, fun _ => t1Report, fun _ => 0, fun _ => 0⟩

/-- `okEnv` with the bytes of the device-info report changed from
offset 2 on (the data report is unchanged). -/
def altEnv : Env :=
  ⟨[⟨0x1130, 0x660c⟩], fun _ => 1, fun _ => 0, 0, fun _ => 0, fun _ => 32,
    fun _ => 256, fun n => if n = 0 then t1ReportAlt else t1Report,
    fun _ => 0, fun _ => 0⟩

/-- An environment in which acquisition and the protocol transfers
succeed, the device-info report carries the unrecognised type word
`0x0000`, and the release of interface 1 — the first teardown call —
fails with libusb code `-4` (`LIBUSB_ERROR_NO_DEVICE`). -/
def relFailEnv : Env :=
  ⟨[⟨0x1130, 0x660c⟩], fun _ => 1, fun _ => 0, 0, fun _ => 0, fun _ => 32,
    fun _ => 256, fun _ => List.replicate 256 0,
    fun i => if i = 1 then -4 else 0, fun _ => 0⟩

/-- `okEnv` with no devices attached at all. -/
def noDevEnv : Env :=
  ⟨[], fun _ => 1, fun _ => 0, 0, fun _ => 0, fun _ => 32,
    fun _ => 256, fun _ => t1Report, fun _ => 0, fun _ => 0⟩

/-- `okEnv` with every inbound transfer returning only a single byte. -/
def shortReadEnv : Env :=
  ⟨[⟨0x1130, 0x660c⟩], fun _ => 1, fun _ => 0, 0, fun _ => 0, fun _ => 32,
    fun _ => 1, fun _ => t1Report, fun _ => 0, fun _ => 0⟩

/-! ### Helper lemmas -/

lemma usb_send_res_32 : usb_send_res 32 = Except.ok () := by
  simp [usb_send_res]

lemma sendSeq_ok (env : Env) (h : ∀ n, env.sendR n = 32) :
    ∀ (ms : List (List Nat)) (sc : Nat),
      sendSeq env sc ms = (ms.map Ev.send, sc + ms.length, Except.ok ()) := by
  intro ms
  induction ms with
  | nil => intro sc; simp [sendSeq]
  | cons m rest ih =>
    intro sc
    have hn : sc + 1 + rest.length = sc + (rest.length + 1) := by omega
    simp only [sendSeq, h sc, usb_send_res_32, ih (sc + 1), List.map_cons,
      List.length_cons, hn]

lemma read_data_msgs_length (c : Nat) : (read_data_msgs c).length = 10 := by
  simp [read_data_msgs, send_cmd_msgs]

lemma read_data_eval (env : Env) (h : ∀ n, env.sendR n = 32) (sc rc c : Nat) :
    read_data env sc rc c =
      ((read_data_msgs c).map Ev.send ++ [Ev.recv], sc + 10, rc + 1,
        match usb_recv_res (env.recvR rc) with
        | Except.ok _ => Except.ok (env.recvD rc)
        | Except.error e => Except.error e) := by
  rw [read_data, sendSeq_ok env h, read_data_msgs_length]
  cases husb : usb_recv_res (env.recvR rc) with
  | ok u => simp [usb_recv, husb]
  | error e => simp [usb_recv, husb]

lemma usb_recv_res_ok (r : Int) (h : 256 ≤ r) : usb_recv_res r = Except.ok () := by
  have h1 : ¬ r < 0 := by omega
  have h2 : ¬ r < 256 := by omega
  simp [usb_recv_res, h1, h2]

lemma sendSeq_trace_shape (env : Env) :
    ∀ (ms : List (List Nat)) (sc : Nat),
      ∃ k, (sendSeq env sc ms).1 = (ms.take k).map Ev.send := by
  intro ms
  induction ms with
  | nil => intro sc; exact ⟨0, rfl⟩
  | cons m rest ih =>
    intro sc
    simp only [sendSeq]
    cases husb : usb_send_res (env.sendR sc) with
    | ok u =>
      obtain ⟨k, hk⟩ := ih (sc + 1)
      refine ⟨k + 1, ?_⟩
      rcases hs : sendSeq env (sc + 1) rest with ⟨t2, sc2, r⟩
      rw [hs] at hk
      simp only [hs, List.take_succ_cons, List.map_cons]
      exact congrArg (Ev.send m :: ·) hk
    | error e => exact ⟨1, by simp⟩

lemma send_not_td (m : List Nat) : isTd (Ev.send m) = false := rfl

lemma map_send_filter_td (ms : List (List Nat)) :
    (ms.map Ev.send).filter isTd = [] := by
  induction ms with
  | nil => rfl
  | cons m rest ih => simp [List.filter, isTd, ih]

lemma sendSeq_filter_td (env : Env) (ms : List (List Nat)) (sc : Nat) :
    (sendSeq env sc ms).1.filter isTd = [] := by
  obtain ⟨k, hk⟩ := sendSeq_trace_shape env ms sc
  rw [hk, map_send_filter_td]

lemma read_data_filter_td (env : Env) (sc rc c : Nat) :
    (read_data env sc rc c).1.filter isTd = [] := by
  rw [read_data]
  cases hs : sendSeq env sc (read_data_msgs c) with
  | mk t rest =>
    obtain ⟨sc2, rs⟩ := rest
    have ht : t.filter isTd = [] := by
      have := sendSeq_filter_td env (read_data_msgs c) sc
      rw [hs] at this
      exact this
    cases rs with
    | ok u =>
      cases hr : (usb_recv (env.recvR rc) (env.recvD rc)).2 with
      | ok d => simp [List.filter_append, ht, isTd]
      | error e => simp [List.filter_append, ht, isTd]
    | error e => simpa using ht

lemma send_cmd_filter_td (env : Env) (sc c : Nat) :
    (send_cmd env sc c).1.filter isTd = [] :=
  sendSeq_filter_td env (send_cmd_msgs c) sc

lemma protocol_filter_td (env : Env) : (protocol env).1.filter isTd = [] := by
  rw [protocol]
  rcases h1 : read_data env 0 0 0x52 with ⟨t, sc, rc, r⟩
  have ht : t.filter isTd = [] := by
    have h := read_data_filter_td env 0 0 0x52
    rw [h1] at h
    exact h
  rcases r with e | dinfo
  · simp [ht]
  · by_cases hw : devWord dinfo = 0x5857
    · rcases h2 : send_cmd env sc 0x43 with ⟨t2, sc2, r2⟩
      have ht2 : t2.filter isTd = [] := by
        have h := send_cmd_filter_td env sc 0x43
        rw [h2] at h
        exact h
      rcases r2 with e | u
      · simp [hw, h2, List.filter_append, ht, ht2]
      · rcases h3 : read_data env sc2 rc 0x54 with ⟨t3, sc3, rc3, r3⟩
        have ht3 : t3.filter isTd = [] := by
          have h := read_data_filter_td env sc2 rc 0x54
          rw [h3] at h
          exact h
        rcases r3 with e | d
        · simp [hw, h2, h3, List.filter_append, ht, ht2, ht3]
        · simp [hw, h2, h3, List.filter_append, ht, ht2, ht3, isTd]
    · simp [hw, ht]

lemma attach_ctor_filter_td (i : Nat) (ka dr : Int) :
    (attach_ctor i ka dr).1.filter isTd = [] := by
  unfold attach_ctor
  split
  · simp [isTd]
  · split
    · simp [isTd]
    · split <;> simp [isTd]

lemma claim_ctor_filter_td (i : Nat) (cr : Int) :
    (claim_ctor i cr).1.filter isTd = [] := by
  unfold claim_ctor
  split <;> simp [isTd]

lemma set_config_filter_td (r : Int) :
    (set_config_step r).1.filter isTd = [] := by
  unfold set_config_step
  split <;> simp [isTd]

lemma claim_dtor_ok (i : Nat) (r : Int) (h : 0 ≤ r) :
    claim_dtor i r = ([Ev.release i], Except.ok ()) := by
  have hn : ¬ r < 0 := by omega
  unfold claim_dtor release_step
  simp [hn, dtor_catch]

lemma claim_dtor_err (i : Nat) (r : Int) (h : r < 0) :
    claim_dtor i r =
      ([Ev.release i, Ev.log (UErr.usb r)], Except.error (UErr.usb r)) := by
  unfold claim_dtor release_step
  simp [h, dtor_catch]

lemma attach_dtor_ok (i : Nat) (w : Bool) (r : Int) (h : 0 ≤ r) :
    attach_dtor i w r = ((if w then [Ev.attach i] else []), Except.ok ()) := by
  have hn : ¬ r < 0 := by omega
  unfold attach_dtor reattach_step
  cases w <;> simp [hn, dtor_catch]

lemma attach_dtor_err (i : Nat) (r : Int) (h : r < 0) :
    attach_dtor i true r =
      ([Ev.attach i, Ev.log (UErr.usb r)], Except.error (UErr.usb r)) := by
  unfold attach_dtor reattach_step
  simp [h, dtor_catch]

lemma claim_dtor_filter_td (i : Nat) (r : Int) :
    (claim_dtor i r).1.filter isTd = [Ev.release i] := by
  unfold claim_dtor release_step
  split <;> simp [dtor_catch, isTd]

lemma attach_dtor_filter_td (i : Nat) (w : Bool) (r : Int) :
    (attach_dtor i w r).1.filter isTd = if w then [Ev.attach i] else [] := by
  unfold attach_dtor reattach_step
  cases w with
  | true => simp only [if_true]; split <;> simp [dtor_catch, isTd]
  | false => simp [dtor_catch]

lemma release_mem_claim_dtor (i : Nat) (r : Int) :
    Ev.release i ∈ (claim_dtor i r).1 := by
  unfold claim_dtor release_step
  split <;> simp [dtor_catch]

lemma send_not_mem_claim_dtor (i : Nat) (r : Int) (m : List Nat) :
    Ev.send m ∉ (claim_dtor i r).1 := by
  unfold claim_dtor release_step
  split <;> simp [dtor_catch]

lemma send_not_mem_attach_dtor (i : Nat) (w : Bool) (r : Int) (m : List Nat) :
    Ev.send m ∉ (attach_dtor i w r).1 := by
  unfold attach_dtor reattach_step
  split
  · split <;> simp [dtor_catch]
  · simp [dtor_catch]

lemma count_recv_claim_dtor (i : Nat) (r : Int) :
    (claim_dtor i r).1.count Ev.recv = 0 := by
  unfold claim_dtor release_step
  split <;> simp [dtor_catch]

lemma count_recv_attach_dtor (i : Nat) (w : Bool) (r : Int) :
    (attach_dtor i w r).1.count Ev.recv = 0 := by
  unfold attach_dtor reattach_step
  split
  · split <;> simp [dtor_catch]
  · simp [dtor_catch]

lemma set_config_err_neg {r : Int} {t : List Ev} {e : UErr}
    (h : set_config_step r = (t, Except.error e)) : r < 0 := by
  by_cases hlt : r < 0
  · exact hlt
  · simp [set_config_step, hlt] at h

lemma set_config_ok_nonneg {r : Int} {t : List Ev} {u : Unit}
    (h : set_config_step r = (t, Except.ok u)) : 0 ≤ r := by
  by_cases hlt : r < 0
  · simp [set_config_step, hlt] at h
  · omega

lemma claim_ctor_err_neg {i : Nat} {cr : Int} {t : List Ev} {e : UErr}
    (h : claim_ctor i cr = (t, Except.error e)) : cr < 0 := by
  by_cases hlt : cr < 0
  · exact hlt
  · simp [claim_ctor, hlt] at h

lemma claim_ctor_ok_nonneg {i : Nat} {cr : Int} {t : List Ev} {u : Unit}
    (h : claim_ctor i cr = (t, Except.ok u)) : 0 ≤ cr := by
  by_cases hlt : cr < 0
  · simp [claim_ctor, hlt] at h
  · omega

/-- The teardown events of a session all of whose release and
reattach calls succeed: exactly one release per fully constructed
claim guard and one reattach per fully constructed attach guard whose
`was_attached` flag is set, in reverse order of guard construction. -/
lemma session_filter_td (env : Env)
    (hrel : ∀ i, 0 ≤ env.releaseR i) (hatt : ∀ i, 0 ≤ env.attachR i) :
    (session env).1.filter isTd =
      (if g_i2 env then [Ev.release 1] else []) ++
        (if g_i1 env then [Ev.release 0] else []) ++
        (if g_a2 env && wAtt env 1 then [Ev.attach 1] else []) ++
        (if g_a1 env && wAtt env 0 then [Ev.attach 0] else []) := by
  have hcd0 : claim_dtor 0 (env.releaseR 0) = ([Ev.release 0], Except.ok ()) :=
    claim_dtor_ok 0 _ (hrel 0)
  have hcd1 : claim_dtor 1 (env.releaseR 1) = ([Ev.release 1], Except.ok ()) :=
    claim_dtor_ok 1 _ (hrel 1)
  rcases hd : usb_device_get env.devices 0x1130 0x660c with e | dev
  · have hdev : devOk env = false := by simp [devOk, hd]
    simp [session, hd, g_i2, g_i1, g_a2, g_a1, hdev]
  · have hdev : devOk env = true := by simp [devOk, hd]
    rcases ha0 : attach_ctor 0 (env.kactiveR 0) (env.detachR 0) with ⟨t1, r0⟩
    have ht1 : t1.filter isTd = [] := by
      have h := attach_ctor_filter_td 0 (env.kactiveR 0) (env.detachR 0)
      rw [ha0] at h
      exact h
    rcases r0 with e | w0
    · have haOk0 : aOk env 0 = false := by simp [aOk, ha0]
      simp [session, hd, ha0, g_i2, g_i1, g_a2, g_a1, hdev, haOk0, ht1]
    · have haOk0 : aOk env 0 = true := by simp [aOk, ha0]
      have hw0 : wAtt env 0 = w0 := by simp [wAtt, ha0]
      have had0 : attach_dtor 0 w0 (env.attachR 0) =
          ((if w0 then [Ev.attach 0] else []), Except.ok ()) :=
        attach_dtor_ok 0 w0 _ (hatt 0)
      rcases ha1 : attach_ctor 1 (env.kactiveR 1) (env.detachR 1) with ⟨t2, r1⟩
      have ht2 : t2.filter isTd = [] := by
        have h := attach_ctor_filter_td 1 (env.kactiveR 1) (env.detachR 1)
        rw [ha1] at h
        exact h
      rcases r1 with e | w1
      · have haOk1 : aOk env 1 = false := by simp [aOk, ha1]
        simp [session, hd, ha0, ha1, g_i2, g_i1, g_a2, g_a1, hdev, haOk0, haOk1,
          hw0, end_scope, run_dtors, had0, apply_ite (List.filter isTd),
          List.filter_append, ht1, ht2, isTd]
      · have haOk1 : aOk env 1 = true := by simp [aOk, ha1]
        have hw1 : wAtt env 1 = w1 := by simp [wAtt, ha1]
        have had1 : attach_dtor 1 w1 (env.attachR 1) =
            ((if w1 then [Ev.attach 1] else []), Except.ok ()) :=
          attach_dtor_ok 1 w1 _ (hatt 1)
        rcases hsc : set_config_step env.setConfigR with ⟨t3, r3⟩
        have ht3 : t3.filter isTd = [] := by
          have h := set_config_filter_td env.setConfigR
          rw [hsc] at h
          exact h
        rcases r3 with e | u3
        · have hcfg : ¬ (0 ≤ env.setConfigR) := by
            have h := set_config_err_neg hsc
            omega
          simp [session, hd, ha0, ha1, hsc, g_i2, g_i1, g_a2, g_a1, hdev, haOk0,
            haOk1, hw0, hw1, hcfg, end_scope, run_dtors, had0, had1,
            apply_ite (List.filter isTd), List.filter_append, ht1, ht2, ht3,
            isTd]
        · have hcfg : 0 ≤ env.setConfigR := set_config_ok_nonneg hsc
          rcases hc0 : claim_ctor 0 (env.claimR 0) with ⟨t4, r4⟩
          have ht4 : t4.filter isTd = [] := by
            have h := claim_ctor_filter_td 0 (env.claimR 0)
            rw [hc0] at h
            exact h
          rcases r4 with e | u4
          · have hcl0 : ¬ (0 ≤ env.claimR 0) := by
              have h := claim_ctor_err_neg hc0
              omega
            simp [session, hd, ha0, ha1, hsc, hc0, g_i2, g_i1, g_a2, g_a1, hdev,
              haOk0, haOk1, hw0, hw1, hcfg, hcl0, end_scope, run_dtors, had0,
              had1, apply_ite (List.filter isTd), List.filter_append, ht1, ht2,
              ht3, ht4, isTd]
          · have hcl0 : 0 ≤ env.claimR 0 := claim_ctor_ok_nonneg hc0
            rcases hc1 : claim_ctor 1 (env.claimR 1) with ⟨t5, r5⟩
            have ht5 : t5.filter isTd = [] := by
              have h := claim_ctor_filter_td 1 (env.claimR 1)
              rw [hc1] at h
              exact h
            rcases r5 with e | u5
            · have hcl1 : ¬ (0 ≤ env.claimR 1) := by
                have h := claim_ctor_err_neg hc1
                omega
              simp [session, hd, ha0, ha1, hsc, hc0, hc1, g_i2, g_i1, g_a2,
                g_a1, hdev, haOk0, haOk1, hw0, hw1, hcfg, hcl0, hcl1, end_scope,
                run_dtors, hcd0, had0, had1, apply_ite (List.filter isTd),
                List.filter_append, ht1, ht2, ht3, ht4, ht5, isTd]
            · have hcl1 : 0 ≤ env.claimR 1 := claim_ctor_ok_nonneg hc1
              rcases hp : protocol env with ⟨tp, r⟩
              have htp : tp.filter isTd = [] := by
                have h := protocol_filter_td env
                rw [hp] at h
                exact h
              simp [session, hd, ha0, ha1, hsc, hc0, hc1, hp, g_i2, g_i1, g_a2,
                g_a1, hdev, haOk0, haOk1, hw0, hw1, hcfg, hcl0, hcl1, end_scope,
                run_dtors, hcd0, hcd1, had0, had1, apply_ite (List.filter isTd),
                List.filter_append, ht1, ht2, ht3, ht4, ht5, htp, isTd]

lemma count_recv_map_send (ms : List (List Nat)) :
    (ms.map Ev.send).count Ev.recv = 0 := by
  rw [List.count_eq_zero]
  simp

lemma sendSeq_congr {env env' : Env} (h : env'.sendR = env.sendR) :
    ∀ (ms : List (List Nat)) (sc : Nat), sendSeq env' sc ms = sendSeq env sc ms := by
  intro ms
  induction ms with
  | nil => intro sc; rfl
  | cons m rest ih =>
    intro sc
    simp only [sendSeq, h, ih (sc + 1)]

lemma send_cmd_fun_congr {env env' : Env} (h : env'.sendR = env.sendR) :
    send_cmd env' = send_cmd env := by
  funext sc c
  exact sendSeq_congr h (send_cmd_msgs c) sc

lemma read_data_congr {env env' : Env} (h6 : env'.sendR = env.sendR)
    (h7 : env'.recvR = env.recvR) {rc : Nat}
    (hd : env'.recvD rc = env.recvD rc) (sc c : Nat) :
    read_data env' sc rc c = read_data env sc rc c := by
  unfold read_data
  rw [sendSeq_congr h6, h7, hd]

/-- The first `read_data` of the two environments differs at most in
the payload of a successful read. -/
lemma read_data_rc0 {env env' : Env} (h6 : env'.sendR = env.sendR)
    (h7 : env'.recvR = env.recvR) (sc c : Nat) :
    ∃ t a b,
      (read_data env sc 0 c = (t, a, b, Except.ok (env.recvD 0)) ∧
        read_data env' sc 0 c = (t, a, b, Except.ok (env'.recvD 0))) ∨
      (∃ e, read_data env sc 0 c = (t, a, b, Except.error e) ∧
        read_data env' sc 0 c = (t, a, b, Except.error e)) := by
  unfold read_data
  rw [sendSeq_congr h6, h7]
  rcases hs : sendSeq env sc (read_data_msgs c) with ⟨t, sc2, rs⟩
  rcases rs with e | u
  · exact ⟨t, sc2, 0, Or.inr ⟨e, rfl, rfl⟩⟩
  · cases hr : usb_recv_res (env.recvR 0) with
    | ok u2 =>
      refine ⟨t ++ [Ev.recv], sc2, 1, Or.inl ⟨?_, ?_⟩⟩ <;> simp [usb_recv, hr]
    | error e =>
      refine ⟨t ++ [Ev.recv], sc2, 1, Or.inr ⟨e, ?_, ?_⟩⟩ <;> simp [usb_recv, hr]

/-- Protocol congruence when the two environments agree on everything
except bytes 2.. of the device-info report. -/
lemma protocol_congr_devinfo {env env' : Env} (h6 : env'.sendR = env.sendR)
    (h7 : env'.recvR = env.recvR)
    (hb0 : (env'.recvD 0).getD 0 0 = (env.recvD 0).getD 0 0)
    (hb1 : (env'.recvD 0).getD 1 0 = (env.recvD 0).getD 1 0)
    (hrest : ∀ n, n ≠ 0 → env'.recvD n = env.recvD n) :
    protocol env' = protocol env := by
  have hw : devWord (env'.recvD 0) = devWord (env.recvD 0) := by
    unfold devWord
    rw [hb0, hb1]
  obtain ⟨t, a, b, hcase⟩ := read_data_rc0 h6 h7 0 0x52
  rcases hcase with ⟨hok, hok'⟩ | ⟨e, herr, herr'⟩
  · unfold protocol
    rw [hok, hok']
    dsimp only
    rw [hw]
    by_cases hsw : devWord (env.recvD 0) = 0x5857
    · simp only [hsw, if_true]
      rw [send_cmd_fun_congr h6]
      rcases h2 : send_cmd env a 0x43 with ⟨t2, sc2, r2⟩
      rcases r2 with e | u
      · rfl
      · dsimp only
        rw [read_data_congr h6 h7 (hrest b ?hb) sc2 0x54]
        case hb =>
          -- the successful first read advanced the inbound counter to 1
          have : b = 1 := by
            unfold read_data at hok
            rcases hs : sendSeq env 0 (read_data_msgs 0x52) with ⟨t0, sc0, rs⟩
            rw [hs] at hok
            rcases rs with e0 | u0
            · simp at hok
            · rcases hr : (usb_recv (env.recvR 0) (env.recvD 0)).2 with e0 | d0
              · rw [hr] at hok
                simp at hok
              · rw [hr] at hok
                simp at hok
                omega
          omega
    · simp [hsw]
  · unfold protocol
    rw [herr, herr']

/-- Evaluating a session whose acquisition phase fully succeeds: the
trace is the seven acquisition events, the protocol trace, then the
four teardown traces in reverse guard order; the outcome is the
protocol's. -/
lemma session_eval_good (env : Env)
    (hdev : ∃ dv, usb_device_get env.devices 0x1130 0x660c = Except.ok dv)
    (hk0 : env.kactiveR 0 = 1) (hk1 : env.kactiveR 1 = 1)
    (hd0 : env.detachR 0 = 0) (hd1 : env.detachR 1 = 0)
    (hcf : env.setConfigR = 0) (hc0 : env.claimR 0 = 0) (hc1 : env.claimR 1 = 0)
    (hrel0 : 0 ≤ env.releaseR 0) (hrel1 : 0 ≤ env.releaseR 1)
    (hatt0 : 0 ≤ env.attachR 0) (hatt1 : 0 ≤ env.attachR 1) :
    session env =
      ([Ev.kactive 0, Ev.detach 0, Ev.kactive 1, Ev.detach 1, Ev.setConfig 1,
        Ev.claim 0, Ev.claim 1] ++ (protocol env).1 ++
        [Ev.release 1, Ev.release 0, Ev.attach 1, Ev.attach 0],
        Outcome.finished (protocol env).2) := by
  obtain ⟨dv, hdv⟩ := hdev
  have hcd0 : claim_dtor 0 (env.releaseR 0) = ([Ev.release 0], Except.ok ()) :=
    claim_dtor_ok 0 _ hrel0
  have hcd1 : claim_dtor 1 (env.releaseR 1) = ([Ev.release 1], Except.ok ()) :=
    claim_dtor_ok 1 _ hrel1
  have had0 : attach_dtor 0 true (env.attachR 0) =
      ([Ev.attach 0], Except.ok ()) := attach_dtor_ok 0 true _ hatt0
  have had1 : attach_dtor 1 true (env.attachR 1) =
      ([Ev.attach 1], Except.ok ()) := attach_dtor_ok 1 true _ hatt1
  have ha0 : attach_ctor 0 (env.kactiveR 0) (env.detachR 0) =
      ([Ev.kactive 0, Ev.detach 0], Except.ok true) := by
    rw [hk0, hd0]
    simp [attach_ctor]
  have ha1 : attach_ctor 1 (env.kactiveR 1) (env.detachR 1) =
      ([Ev.kactive 1, Ev.detach 1], Except.ok true) := by
    rw [hk1, hd1]
    simp [attach_ctor]
  have hsc : set_config_step env.setConfigR = ([Ev.setConfig 1], Except.ok ()) := by
    rw [hcf]
    simp [set_config_step]
  have hcc0 : claim_ctor 0 (env.claimR 0) = ([Ev.claim 0], Except.ok ()) := by
    rw [hc0]
    simp [claim_ctor]
  have hcc1 : claim_ctor 1 (env.claimR 1) = ([Ev.claim 1], Except.ok ()) := by
    rw [hc1]
    simp [claim_ctor]
  rcases hp : protocol env with ⟨tp, r⟩
  simp [session, hdv, ha0, ha1, hsc, hcc0, hcc1, hp, end_scope, run_dtors,
    hcd0, hcd1, had0, had1]

lemma protocol_eval_unknown (env : Env) (hsend : ∀ n, env.sendR n = 32)
    (hr0 : 256 ≤ env.recvR 0) (hw : devWord (env.recvD 0) ≠ 0x5857) :
    protocol env =
      ((read_data_msgs 0x52).map Ev.send ++ [Ev.recv],
        Except.error UErr.unknownDevType) := by
  rw [protocol, read_data_eval env hsend, usb_recv_res_ok _ hr0]
  simp [hw]

lemma protocol_eval_shortRead (env : Env) (hsend : ∀ n, env.sendR n = 32)
    (hr0 : env.recvR 0 = 1) :
    protocol env =
      ((read_data_msgs 0x52).map Ev.send ++ [Ev.recv],
        Except.error (UErr.shortRead 1)) := by
  rw [protocol, read_data_eval env hsend, hr0]
  simp [usb_recv_res]

lemma protocol_eval_temper1 (env : Env) (hsend : ∀ n, env.sendR n = 32)
    (hr0 : 256 ≤ env.recvR 0) (hw : devWord (env.recvD 0) = 0x5857) :
    ∃ t, (protocol env).1 =
      (read_data_msgs 0x52).map Ev.send ++ [Ev.recv] ++
        (send_cmd_msgs 0x43).map Ev.send ++ t := by
  rw [protocol, read_data_eval env hsend, usb_recv_res_ok _ hr0]
  dsimp only
  rw [hw]
  simp only [if_true]
  rw [send_cmd, sendSeq_ok env hsend]
  dsimp only
  rcases h3 : read_data env (0 + 10 + (send_cmd_msgs 0x43).length) (0 + 1) 0x54
    with ⟨t3, sc3, rc3, r3⟩
  rcases r3 with e | d
  · exact ⟨t3, by simp⟩
  · exact ⟨t3 ++ [Ev.print (decode d)], by simp⟩

/-! ### Claims -/

/-- C1: for every opcode `c`, on the success path `read_data` emits
exactly ten outbound 32-byte messages before the single inbound read,
in this exact order: the select-device framing message
`{10,11,12,13,0,0,2,0}`, the command message whose first byte is `c`
and remaining bytes zero, seven all-zero padding messages, and the
read-request framing message `{10,11,12,13,0,0,1,0}`, followed by
exactly one `recv`. -/
theorem read_data_protocol_order (env : Env) (c sc rc : Nat)
    (hsend : ∀ n, env.sendR n = 32) (hrecv : 256 ≤ env.recvR rc) :
    (read_data env sc rc c).1 =
      [Ev.send selectMsg, Ev.send (commandMsg c)] ++
        List.replicate 7 (Ev.send padMsg) ++ [Ev.send readReqMsg, Ev.recv] ∧
    (read_data env sc rc c).1.count Ev.recv = 1 ∧
    ((read_data env sc rc c).1.filter isSend).length = 10 := by
  have h1 : (read_data env sc rc c).1 =
      [Ev.send selectMsg, Ev.send (commandMsg c)] ++
        List.replicate 7 (Ev.send padMsg) ++ [Ev.send readReqMsg, Ev.recv] := by
    rw [read_data_eval env hsend, usb_recv_res_ok _ hrecv]
    simp [read_data_msgs, send_cmd_msgs]
  refine ⟨h1, ?_, ?_⟩
  · rw [h1]
    simp [List.count_append, List.count_cons, List.count_replicate]
  · rw [h1]
    simp [isSend, List.filter_append]

/-- Witness for C1 at a concrete all-success environment, the devtype
opcode, and counters zero. -/
theorem read_data_protocol_order_w :
    (read_data okEnv 0 0 0x52).1 =
      [Ev.send selectMsg, Ev.send (commandMsg 0x52)] ++
        List.replicate 7 (Ev.send padMsg) ++ [Ev.send readReqMsg, Ev.recv] ∧
    (read_data okEnv 0 0 0x52).1.count Ev.recv = 1 ∧
    ((read_data okEnv 0 0 0x52).1.filter isSend).length = 10 :=
  read_data_protocol_order okEnv 0x52 0 0 (fun _ => rfl) (by decide)

/-- C3: for every 256-byte report of bytes, `decode` computes
`r[0] + r[1]/256` (an exactly representable dyadic value, so the `f32`
and `f64` computations agree with the rational one), the result lies
in `[0, 256)`, and a report starting `0x14, 0x80` decodes to `20.5`. -/
theorem decode_formula_and_range (d : List Nat) (hlen : d.length = 256)
    (hb : ∀ b ∈ d, b < 256) :
    decode d = (d.getD 0 0 : ℚ) + (d.getD 1 0 : ℚ) / 256 ∧
    0 ≤ decode d ∧ decode d < 256 ∧
    (d.getD 0 0 = 0x14 → d.getD 1 0 = 0x80 → decode d = 41 / 2) := by
  have hl0 : 0 < d.length := by omega
  have hl1 : 1 < d.length := by omega
  have h0 : d.getD 0 0 < 256 := by
    rw [List.getD_eq_getElem d 0 hl0]
    exact hb _ (List.getElem_mem hl0)
  have h1 : d.getD 1 0 < 256 := by
    rw [List.getD_eq_getElem d 0 hl1]
    exact hb _ (List.getElem_mem hl1)
  have h0' : d.getD 0 0 ≤ 255 := by omega
  have h1' : d.getD 1 0 ≤ 255 := by omega
  have q0 : (d.getD 0 0 : ℚ) ≤ 255 := by exact_mod_cast h0'
  have q1 : (d.getD 1 0 : ℚ) ≤ 255 := by exact_mod_cast h1'
  refine ⟨rfl, ?_, ?_, ?_⟩
  · unfold decode
    positivity
  · unfold decode
    have hd1 : (d.getD 1 0 : ℚ) / 256 < 1 := by
      rw [div_lt_one (by norm_num)]
      linarith
    linarith
  · intro hA hB
    unfold decode
    rw [hA, hB]
    norm_num

/-- Witness for C3 at the concrete report `0x14, 0x80, 0, …, 0`. -/
theorem decode_formula_and_range_w :
    decode r205 = 41 / 2 ∧ 0 ≤ decode r205 ∧ decode r205 < 256 := by
  have h := decode_formula_and_range r205 (by decide) (by decide)
  exact ⟨h.2.2.2 rfl rfl, h.2.1, h.2.2.1⟩

/-- C7: the device locator opens the first device of the enumeration
snapshot whose descriptor matches the vendor/product pair (this is
`List.find?`), fails with not-found exactly when no descriptor
matches, and a locator failure produces a session with an empty trace:
no interface guard is ever constructed. -/
theorem locator_first_match_or_not_found :
    (∀ (devs : List USBDev) (v p : Nat),
      usb_device_get devs v p =
        match devs.find? (fun d => d.idVendor == v && d.idProduct == p) with
        | some d => Except.ok d
        | none => Except.error UErr.notFound) ∧
    (∀ env : Env,
      usb_device_get env.devices 0x1130 0x660c = Except.error UErr.notFound →
        session env = ([], Outcome.finished (Except.error UErr.notFound))) := by
  constructor
  · intro devs v p
    induction devs with
    | nil => rfl
    | cons d rest ih =>
      by_cases h : (d.idVendor == v && d.idProduct == p) = true
      · simp [usb_device_get, List.find?_cons, h]
      · simp [usb_device_get, List.find?_cons, h, ih]
  · intro env h
    simp [session, h]

/-- Witness for C7 at the empty enumeration snapshot. -/
theorem locator_first_match_or_not_found_w :
    usb_device_get noDevEnv.devices 0x1130 0x660c = Except.error UErr.notFound ∧
    session noDevEnv = ([], Outcome.finished (Except.error UErr.notFound)) := by
  refine ⟨?_, locator_first_match_or_not_found.2 noDevEnv rfl⟩
  have h1 := locator_first_match_or_not_found.1 noDevEnv.devices 0x1130 0x660c
  simpa using h1

/-- C8: an outbound transfer fails exactly when the stack reports an
error (`usb_error`, the spec's DeviceError) or transfers a byte count
other than 32 (the short-write `runtime_error`); on a 32-byte transfer
it succeeds, and exactly one transfer is attempted per call — no
retry.  The same holds for `send_data` of variant part_000. -/
theorem send_exact_32_no_retry (r : Int) (m : List Nat) :
    ((usb_send r m).2 = Except.ok () ↔ r = 32) ∧
    (r < 0 → (usb_send r m).2 = Except.error (UErr.usb r)) ∧
    (0 ≤ r → r ≠ 32 → (usb_send r m).2 = Except.error (UErr.shortWrite r)) ∧
    (usb_send r m).1 = [Ev.send m] ∧
    ((send_data r m).2 = Except.ok () ↔ r = 32) ∧
    (send_data r m).1 = [Ev.send (sendBuf m)] := by
  have hok : usb_send_res r = Except.ok () ↔ r = 32 := by
    unfold usb_send_res
    by_cases h0 : r < 0
    · rw [if_pos h0]
      simp only [reduceCtorEq, false_iff]
      omega
    · by_cases h32 : r = 32
      · simp [h0, h32]
      · simp [h0, h32]
  refine ⟨hok, ?_, ?_, rfl, hok, rfl⟩
  · intro h0
    simp [usb_send, usb_send_res, h0]
  · intro hge hne
    have h0 : ¬ r < 0 := by omega
    simp [usb_send, usb_send_res, h0, hne]

/-- Witness for C8 at a failing transfer and a short write. -/
theorem send_exact_32_no_retry_w :
    (usb_send (-1) padMsg).2 = Except.error (UErr.usb (-1)) ∧
    (usb_send 31 padMsg).2 = Except.error (UErr.shortWrite 31) :=
  ⟨(send_exact_32_no_retry (-1) padMsg).2.1 (by norm_num),
    (send_exact_32_no_retry 31 padMsg).2.2.1 (by norm_num) (by norm_num)⟩

/-- C9: every outbound message of the `temper.cpp` protocol is exactly
32 bytes for every opcode, and every byte beyond the significant
prefix (8 bytes for the two framing messages, 1 byte for the command
message, 0 bytes for padding) is zero; likewise every buffer variant
part_000's `send_data` builds for its 18 protocol messages. -/
theorem outbound_msgs_32_zero_padded (c : Nat) :
    (read_data_msgs c).map List.length = List.replicate 10 32 ∧
    List.drop 8 selectMsg = List.replicate 24 0 ∧
    List.drop 1 (commandMsg c) = List.replicate 31 0 ∧
    padMsg = List.replicate 32 0 ∧
    List.drop 8 readReqMsg = List.replicate 24 0 ∧
    p0_main_msgs.map (fun m => (sendBuf m).length) = List.replicate 18 32 ∧
    List.drop 8 (sendBuf select_device) = List.replicate 24 0 ∧
    List.drop 1 (sendBuf increase_precision) = List.replicate 31 0 ∧
    sendBuf padding = List.replicate 32 0 ∧
    List.drop 1 (sendBuf get_temperature) = List.replicate 31 0 ∧
    List.drop 8 (sendBuf close_device) = List.replicate 24 0 := by
  refine ⟨?_, by decide, rfl, rfl, by decide, by decide, by decide, by decide,
    by decide, by decide, by decide⟩
  simp [read_data_msgs, send_cmd_msgs, selectMsg, commandMsg, padMsg, readReqMsg]

/-- C4 counterexample: in variant part_000, an inbound transfer of
only 2 bytes is accepted — `recv_data` returns the report instead of
failing with the short-read error, although 2 is far below 256. -/
theorem recv_short_read_cex :
    (recv_data 2 (List.replicate 256 0)).2 = Except.ok (List.replicate 256 0) ∧
    (recv_data 2 (List.replicate 256 0)).2 ≠
      Except.error (UErr.shortRead 2) ∧
    (0 : Int) ≤ 2 ∧ (2 : Int) < 256 := by
  refine ⟨rfl, ?_, by norm_num, by norm_num⟩
  intro h
  simp [recv_data] at h

/-- C4 (amended): `usb_recv` (temper.cpp and part_001) fails with the
short-read error exactly when the transfer succeeds with fewer than
256 bytes and succeeds exactly on a full 256-byte read; the part_000
variant `recv_data` instead fails only below 2 bytes, so a 1-byte read
aborts in every variant but a 2-byte read succeeds in part_000.  A
1-byte read during the session aborts it with the short-read error
and, provided the teardown calls themselves succeed, both claimed
interfaces are still released (a failing teardown call instead logs
and terminates the process). -/
theorem recv_short_read_amended (r : Int) (d : List Nat) (env : Env)
    (hdev : ∃ dv, usb_device_get env.devices 0x1130 0x660c = Except.ok dv)
    (hk0 : env.kactiveR 0 = 1) (hk1 : env.kactiveR 1 = 1)
    (hd0 : env.detachR 0 = 0) (hd1 : env.detachR 1 = 0)
    (hcf : env.setConfigR = 0) (hc0 : env.claimR 0 = 0) (hc1 : env.claimR 1 = 0)
    (hsend : ∀ n, env.sendR n = 32) (hr0 : env.recvR 0 = 1)
    (hrel0 : 0 ≤ env.releaseR 0) (hrel1 : 0 ≤ env.releaseR 1)
    (hatt0 : 0 ≤ env.attachR 0) (hatt1 : 0 ≤ env.attachR 1) :
    ((usb_recv r d).2 = Except.error (UErr.shortRead r) ↔ 0 ≤ r ∧ r < 256) ∧
    ((usb_recv r d).2 = Except.ok d ↔ 256 ≤ r) ∧
    ((recv_data r d).2 = Except.error (UErr.shortRead r) ↔ 0 ≤ r ∧ r < 2) ∧
    ((recv_data r d).2 = Except.ok d ↔ 2 ≤ r) ∧
    (session env).2 = Outcome.finished (Except.error (UErr.shortRead 1)) ∧
    Ev.release 0 ∈ (session env).1 ∧ Ev.release 1 ∈ (session env).1 := by
  have heval := session_eval_good env hdev hk0 hk1 hd0 hd1 hcf hc0 hc1
    hrel0 hrel1 hatt0 hatt1
  rw [protocol_eval_shortRead env hsend hr0] at heval
  refine ⟨?_, ?_, ?_, ?_, ?_, ?_, ?_⟩
  · unfold usb_recv usb_recv_res
    by_cases h0 : r < 0
    · simp [h0]
    · by_cases h256 : r < 256
      · simp [h0, h256]
        omega
      · simp [h0, h256]
  · unfold usb_recv usb_recv_res
    by_cases h0 : r < 0
    · simp [h0]
      omega
    · by_cases h256 : r < 256
      · simp [h0, h256]
      · simp [h0, h256]
        omega
  · unfold recv_data
    by_cases h0 : r < 0
    · simp [h0]
    · by_cases h2 : r < 2
      · simp [h0, h2]
        omega
      · simp [h0, h2]
  · unfold recv_data
    by_cases h0 : r < 0
    · simp [h0]
      omega
    · by_cases h2 : r < 2
      · simp [h0, h2]
      · simp [h0, h2]
        omega
  · rw [heval]
  · rw [heval]
    simp
  · rw [heval]
    simp

/-- Witness for C4 at a concrete environment whose inbound transfers
all return a single byte. -/
theorem recv_short_read_amended_w :
    ((usb_recv 1 t1Report).2 =
        Except.error (UErr.shortRead 1) ↔ (0 : Int) ≤ 1 ∧ (1 : Int) < 256) ∧
    ((usb_recv 1 t1Report).2 = Except.ok t1Report ↔ (256 : Int) ≤ 1) ∧
    ((recv_data 1 t1Report).2 =
        Except.error (UErr.shortRead 1) ↔ (0 : Int) ≤ 1 ∧ (1 : Int) < 2) ∧
    ((recv_data 1 t1Report).2 = Except.ok t1Report ↔ (2 : Int) ≤ 1) ∧
    (session shortReadEnv).2 =
      Outcome.finished (Except.error (UErr.shortRead 1)) ∧
    Ev.release 0 ∈ (session shortReadEnv).1 ∧
    Ev.release 1 ∈ (session shortReadEnv).1 :=
  recv_short_read_amended 1 t1Report shortReadEnv ⟨⟨0x1130, 0x660c⟩, rfl⟩
    rfl rfl rfl rfl rfl rfl rfl (fun _ => rfl) rfl (le_refl 0) (le_refl 0)
    (le_refl 0) (le_refl 0)

/-- C2 (code bug): the claim — release-phase failures are caught,
reported to the diagnostic sink, and never propagate out of the
guard's teardown — describes the evident intent of the guard
destructors' function-try-blocks, but C++ rethrows the handled
exception at the end of a constructor/destructor function-try-block
handler, so the failure escapes the (implicitly `noexcept`) destructor
after being logged and the process terminates.  Evaluated at the
failing input: a failing release of interface 1 is logged yet rethrown
by the destructor; the session, whose protocol had already failed with
the unknown-device error, ends terminated with the release error
instead — masking the prior error — and none of the remaining cleanup
steps (release 0, reattach 1, reattach 0) is ever attempted. -/
theorem guard_release_failure_rethrows :
    Ev.log (UErr.usb (-4)) ∈ (claim_dtor 1 (-4)).1 ∧
    (claim_dtor 1 (-4)).2 = Except.error (UErr.usb (-4)) ∧
    (protocol relFailEnv).2 = Except.error UErr.unknownDevType ∧
    (session relFailEnv).2 = Outcome.terminated (UErr.usb (-4)) ∧
    Ev.log (UErr.usb (-4)) ∈ (session relFailEnv).1 ∧
    (session relFailEnv).1.count (Ev.release 1) = 1 ∧
    (session relFailEnv).1.count (Ev.release 0) = 0 ∧
    (session relFailEnv).1.count (Ev.attach 1) = 0 ∧
    (session relFailEnv).1.count (Ev.attach 0) = 0 := by decide

/-- C5: during session init, if the device-type word decoded from the
first two bytes of the device-info report is `temper1 = 0x5857`, the
session issues the bare reset0 `send_cmd` (select, command `0x43`,
pads — no read request, no inbound read) immediately after the
info-read and proceeds; for every other decoded word the session fails
with the unknown-device error, the read phase never happens (no
`0x54` command is ever sent and exactly one inbound read occurred),
and, provided the teardown calls themselves succeed, both claimed
interfaces are still released.  This models the dispatch of variant
part_001, whose init block copies only `sizeof (dev_info)` report
bytes; `temper.cpp` additionally performs the out-of-bounds 256-byte
copy recorded as a code defect. -/
theorem init_dispatch_temper1 (env : Env)
    (hdev : ∃ dv, usb_device_get env.devices 0x1130 0x660c = Except.ok dv)
    (hk0 : env.kactiveR 0 = 1) (hk1 : env.kactiveR 1 = 1)
    (hd0 : env.detachR 0 = 0) (hd1 : env.detachR 1 = 0)
    (hcf : env.setConfigR = 0) (hc0 : env.claimR 0 = 0) (hc1 : env.claimR 1 = 0)
    (hsend : ∀ n, env.sendR n = 32) (hr0 : env.recvR 0 = 256)
    (hrel0 : 0 ≤ env.releaseR 0) (hrel1 : 0 ≤ env.releaseR 1)
    (hatt0 : 0 ≤ env.attachR 0) (hatt1 : 0 ≤ env.attachR 1) :
    (devWord (env.recvD 0) = 0x5857 →
      ∃ t, (session env).1 =
        [Ev.kactive 0, Ev.detach 0, Ev.kactive 1, Ev.detach 1, Ev.setConfig 1,
          Ev.claim 0, Ev.claim 1] ++
          ((read_data_msgs 0x52).map Ev.send ++ [Ev.recv] ++
            (send_cmd_msgs 0x43).map Ev.send) ++ t) ∧
    (devWord (env.recvD 0) ≠ 0x5857 →
      (session env).2 = Outcome.finished (Except.error UErr.unknownDevType) ∧
      Ev.send (commandMsg 0x54) ∉ (session env).1 ∧
      (session env).1.count Ev.recv = 1 ∧
      Ev.release 0 ∈ (session env).1 ∧ Ev.release 1 ∈ (session env).1) := by
  have heval := session_eval_good env hdev hk0 hk1 hd0 hd1 hcf hc0 hc1
    hrel0 hrel1 hatt0 hatt1
  have h256 : 256 ≤ env.recvR 0 := by omega
  constructor
  · intro hw
    obtain ⟨t, hpt⟩ := protocol_eval_temper1 env hsend h256 hw
    refine ⟨t ++ [Ev.release 1, Ev.release 0, Ev.attach 1, Ev.attach 0], ?_⟩
    rw [heval]
    dsimp only
    rw [hpt]
    simp [List.append_assoc]
  · intro hw
    rw [protocol_eval_unknown env hsend h256 hw] at heval
    refine ⟨?_, ?_, ?_, ?_, ?_⟩
    · rw [heval]
    · rw [heval]
      have hnm : commandMsg 0x54 ∉ read_data_msgs 0x52 := by decide
      simp [List.mem_append, List.mem_map]
      exact hnm
    · rw [heval]
      simp [List.count_append, count_recv_map_send, List.count_cons]
    · rw [heval]
      simp
    · rw [heval]
      simp

/-- Witness for C5 at the all-success environment whose device-info
report carries the TEMPer1 type word. -/
theorem init_dispatch_temper1_w :
    ∃ t, (session okEnv).1 =
      [Ev.kactive 0, Ev.detach 0, Ev.kactive 1, Ev.detach 1, Ev.setConfig 1,
        Ev.claim 0, Ev.claim 1] ++
        ((read_data_msgs 0x52).map Ev.send ++ [Ev.recv] ++
          (send_cmd_msgs 0x43).map Ev.send) ++ t :=
  (init_dispatch_temper1 okEnv ⟨⟨0x1130, 0x660c⟩, rfl⟩ rfl rfl rfl rfl rfl rfl
    rfl (fun _ => rfl) rfl (le_refl 0) (le_refl 0) (le_refl 0)
    (le_refl 0)).1 (by decide)

/-- C6 counterexample: with the release of interface 1 failing, the
session of `relFailEnv` constructs the claim guard for interface 0
(its `claim 0` event is in the trace) yet performs zero release
attempts for it: the failing release of interface 1 is attempted once,
rethrown by the destructor, and the process terminates before the
remaining teardown — so release/reattach do not happen exactly once
per claim on every exit path, as the claim as stated requires. -/
theorem teardown_exactly_once_cex :
    Ev.claim 0 ∈ (session relFailEnv).1 ∧
    (session relFailEnv).1.count (Ev.release 0) = 0 ∧
    (session relFailEnv).1.count (Ev.release 1) = 1 ∧
    (session relFailEnv).2 = Outcome.terminated (UErr.usb (-4)) := by decide

/-- C6 (amended): for every environment whose release and reattach
calls themselves succeed — every exit path of the session, including
propagated protocol failures — the teardown attempts are exactly one
release per fully constructed claim guard and exactly one reattach per
fully constructed attach guard whose interface had the kernel driver
originally bound, in reverse order of guard construction: release 1,
release 0, reattach 1, reattach 0.  (A failing teardown call is
attempted exactly once, logged, and terminates the process, skipping
the remaining attempts.) -/
theorem teardown_exactly_once_reverse_order (env : Env)
    (hrel : ∀ i, 0 ≤ env.releaseR i) (hatt : ∀ i, 0 ≤ env.attachR i) :
    (session env).1.filter isTd =
      (if g_i2 env then [Ev.release 1] else []) ++
        (if g_i1 env then [Ev.release 0] else []) ++
        (if g_a2 env && wAtt env 1 then [Ev.attach 1] else []) ++
        (if g_a1 env && wAtt env 0 then [Ev.attach 0] else []) ∧
    (session env).1.count (Ev.release 0) = (if g_i1 env then 1 else 0) ∧
    (session env).1.count (Ev.release 1) = (if g_i2 env then 1 else 0) ∧
    (session env).1.count (Ev.attach 0) =
      (if g_a1 env && wAtt env 0 then 1 else 0) ∧
    (session env).1.count (Ev.attach 1) =
      (if g_a2 env && wAtt env 1 then 1 else 0) := by
  have hf := session_filter_td env hrel hatt
  refine ⟨hf, ?_, ?_, ?_, ?_⟩
  · rw [← List.count_filter (show isTd (Ev.release 0) = true from rfl), hf]
    cases hb1 : g_i2 env <;> cases hb2 : g_i1 env <;>
      cases hb3 : g_a2 env && wAtt env 1 <;>
      cases hb4 : g_a1 env && wAtt env 0 <;> decide
  · rw [← List.count_filter (show isTd (Ev.release 1) = true from rfl), hf]
    cases hb1 : g_i2 env <;> cases hb2 : g_i1 env <;>
      cases hb3 : g_a2 env && wAtt env 1 <;>
      cases hb4 : g_a1 env && wAtt env 0 <;> decide
  · rw [← List.count_filter (show isTd (Ev.attach 0) = true from rfl), hf]
    cases hb1 : g_i2 env <;> cases hb2 : g_i1 env <;>
      cases hb3 : g_a2 env && wAtt env 1 <;>
      cases hb4 : g_a1 env && wAtt env 0 <;> decide
  · rw [← List.count_filter (show isTd (Ev.attach 1) = true from rfl), hf]
    cases hb1 : g_i2 env <;> cases hb2 : g_i1 env <;>
      cases hb3 : g_a2 env && wAtt env 1 <;>
      cases hb4 : g_a1 env && wAtt env 0 <;> decide

/-- Witness for C6 at the all-success environment. -/
theorem teardown_exactly_once_reverse_order_w :
    (session okEnv).1.filter isTd =
      (if g_i2 okEnv then [Ev.release 1] else []) ++
        (if g_i1 okEnv then [Ev.release 0] else []) ++
        (if g_a2 okEnv && wAtt okEnv 1 then [Ev.attach 1] else []) ++
        (if g_a1 okEnv && wAtt okEnv 0 then [Ev.attach 0] else []) ∧
    (session okEnv).1.count (Ev.release 0) = (if g_i1 okEnv then 1 else 0) ∧
    (session okEnv).1.count (Ev.release 1) = (if g_i2 okEnv then 1 else 0) ∧
    (session okEnv).1.count (Ev.attach 0) =
      (if g_a1 okEnv && wAtt okEnv 0 then 1 else 0) ∧
    (session okEnv).1.count (Ev.attach 1) =
      (if g_a2 okEnv && wAtt okEnv 1 then 1 else 0) :=
  teardown_exactly_once_reverse_order okEnv (fun _ => le_refl 0)
    (fun _ => le_refl 0)

/-- C10 (code bug): the intended noninterference — two sessions whose
environments agree everywhere except on bytes 2..255 of the
device-info report (first two bytes equal, all other reports equal)
are indistinguishable: identical event traces, hence the same
device-type dispatch, and identical outcomes including the printed
temperature.  This holds for variant part_001, whose init block copies
only `sizeof (dev_info)` report bytes and reads bytes 0 and 1;
`temper.cpp` instead copies all 256 device-controlled report bytes
over the 8-byte `dev_info` stack object, an out-of-bounds write with
undefined behaviour through which bytes 2..255 can influence anything
— the code defect recorded in the results. -/
theorem devinfo_tail_noninterference (env env' : Env)
    (h1 : env'.devices = env.devices) (h2 : env'.kactiveR = env.kactiveR)
    (h3 : env'.detachR = env.detachR) (h4 : env'.setConfigR = env.setConfigR)
    (h5 : env'.claimR = env.claimR) (h6 : env'.sendR = env.sendR)
    (h7 : env'.recvR = env.recvR) (h8 : env'.releaseR = env.releaseR)
    (h9 : env'.attachR = env.attachR)
    (hb0 : (env'.recvD 0).getD 0 0 = (env.recvD 0).getD 0 0)
    (hb1 : (env'.recvD 0).getD 1 0 = (env.recvD 0).getD 1 0)
    (hrest : ∀ n, n ≠ 0 → env'.recvD n = env.recvD n) :
    session env' = session env := by
  have hp : protocol env' = protocol env :=
    protocol_congr_devinfo h6 h7 hb0 hb1 hrest
  unfold session
  rw [h1, h2, h3, h4, h5, h8, h9, hp]

/-- Witness for C10: changing every calibration/footer byte of the
device-info report leaves the concrete session unchanged. -/
theorem devinfo_tail_noninterference_w : session altEnv = session okEnv :=
  devinfo_tail_noninterference okEnv altEnv rfl rfl rfl rfl rfl rfl rfl rfl rfl
    (by decide) (by decide) (fun n hn => by simp [altEnv, okEnv, hn])

end Temper
